import Mathlib

/-!
Verification of the HSR (Health Star Rating) scoring engine of ecodish365.

Shallow embedding of the Python sources under
`backend/hsr_calculator/hsr/` into Lean 4:

* `models/category.py`, `models/food.py`, `models/meal.py` — data model;
* `providers/threshold_provider.py` — threshold production and the
  nutritional-context analysis;
* `calculators/hsr_calculator.py` — point lookup, component scoring,
  star-rating conversion, per-food processing heuristic;
* `utils/food_group_mapper.py` — per-food category classification;
* `utils/meal_categorizer.py` — meal-level categorization including
  conflict resolution and tie-breaking.

Python floats are modelled as rationals (`ℚ`); Python `int(x)` is
truncation toward zero (`pyInt` below); Python's `float('inf')`
threshold sentinel is modelled by the two-constructor type `Thresh`.
`bisect.bisect_left` is modelled by a fuel-indexed binary search that
performs exactly the comparisons of the CPython implementation.
-/

namespace HSR

/-- Python `int(x)` conversion: truncation toward zero. -/
def pyInt (q : ℚ) : ℤ := if 0 ≤ q then ⌊q⌋ else ⌈q⌉

theorem pyInt_of_nonneg {q : ℚ} (h : 0 ≤ q) : pyInt q = ⌊q⌋ := by
  simp [pyInt, h]

/-- `max 0 (int x)` and `max 0 ⌊x⌋` agree: truncation and flooring differ
only on negative non-integers, where both are clamped to `0`. -/
theorem max_zero_pyInt (q : ℚ) : max 0 (pyInt q) = max 0 ⌊q⌋ := by
  unfold pyInt
  split
  · rfl
  · rename_i h
    push_neg at h
    have hc : ⌈q⌉ ≤ 0 := Int.ceil_le.mpr (by exact_mod_cast h.le)
    have hf : ⌊q⌋ ≤ 0 := Int.floor_nonpos h.le
    omega

theorem pyInt_mono : Monotone pyInt := by
  intro a b hab
  unfold pyInt
  split <;> split
  · exact Int.floor_le_floor hab
  · rename_i ha hb
    exact absurd (le_trans ha hab) hb
  · rename_i ha hb
    push_neg at ha
    calc ⌈a⌉ ≤ 0 := Int.ceil_le.mpr (by exact_mod_cast ha.le)
    _ ≤ ⌊b⌋ := Int.floor_nonneg.mpr hb
  · exact Int.ceil_le_ceil hab

/-- A threshold entry: a finite number or the `float('inf')` sentinel
used to disable fiber scoring for beverages. -/
inductive Thresh where
  | fin (q : ℚ)
  | inf
  deriving DecidableEq, Repr

/-- Comparison `threshold < value` as performed inside `bisect_left`
(`float('inf') < v` is `False` for every finite `v`). -/
def Thresh.ltVal : Thresh → ℚ → Bool
  | .fin q, x => q < x
  | .inf, _ => false

/-- Comparison `threshold ≤ value` (used only to state the frozen claim
C1, which reads "count of thresholds ≤ value"). -/
def Thresh.leVal : Thresh → ℚ → Bool
  | .fin q, x => q ≤ x
  | .inf, _ => false

/-- Order on threshold entries (finite entries ordered as rationals,
`inf` above everything). -/
def Thresh.le : Thresh → Thresh → Prop
  | .fin a, .fin b => a ≤ b
  | .fin _, .inf => True
  | .inf, .fin _ => False
  | .inf, .inf => True

instance : DecidableRel Thresh.le := by
  intro a b
  cases a <;> cases b <;> simp [Thresh.le] <;> infer_instance

theorem Thresh.le_trans {a b c : Thresh} (h₁ : Thresh.le a b) (h₂ : Thresh.le b c) :
    Thresh.le a c := by
  cases a <;> cases b <;> cases c <;> simp_all [Thresh.le]
  exact h₁.trans h₂

/-- If `a ≤ b` as thresholds and `b < x`, then `a < x`. -/
theorem Thresh.ltVal_of_le_of_ltVal {a b : Thresh} {x : ℚ}
    (h₁ : Thresh.le a b) (h₂ : Thresh.ltVal b x = true) : Thresh.ltVal a x = true := by
  cases a <;> cases b <;> simp_all [Thresh.le, Thresh.ltVal]
  exact lt_of_le_of_lt h₁ h₂

/-- `threshold < ·` is monotone in the value. -/
theorem Thresh.ltVal_mono {t : Thresh} {x y : ℚ} (hxy : x ≤ y)
    (h : Thresh.ltVal t x = true) : Thresh.ltVal t y = true := by
  cases t <;> simp_all [Thresh.ltVal]
  exact lt_of_lt_of_le h hxy

/-- One step of CPython's `bisect_left` inner loop, with explicit fuel.
The fuel is an upper bound on `hi - lo`; each iteration shrinks the
interval by at least one, so `bisectLeft` below always supplies enough. -/
def bisectGo (a : List Thresh) (x : ℚ) : Nat → Nat → Nat → Nat
  | 0, lo, _ => lo
  | fuel + 1, lo, hi =>
    if lo < hi then
      match Thresh.ltVal (a.getD ((lo + hi) / 2) Thresh.inf) x with
      | true => bisectGo a x fuel ((lo + hi) / 2 + 1) hi
      | false => bisectGo a x fuel lo ((lo + hi) / 2)
    else lo

/-- `bisect.bisect_left(a, x)` over the whole list. -/
def bisectLeft (a : List Thresh) (x : ℚ) : Nat := bisectGo a x a.length 0 a.length

/-- `HSRCalculator._get_points_by_thresholds`:
`if not thresholds or thresholds[0] == float('inf'): return 0` then
`min(bisect.bisect_left(thresholds, value), len(thresholds) - 1)`. -/
def getPointsByThresholds (value : ℚ) (thresholds : List Thresh) : Nat :=
  match thresholds with
  | [] => 0
  | t0 :: _ =>
    if t0 = Thresh.inf then 0
    else min (bisectLeft thresholds value) (thresholds.length - 1)

theorem bisectGo_bounds (a : List Thresh) (x : ℚ) :
    ∀ fuel lo hi, lo ≤ hi → lo ≤ bisectGo a x fuel lo hi ∧ bisectGo a x fuel lo hi ≤ hi := by
  intro fuel
  induction fuel with
  | zero => intro lo hi h; exact ⟨le_refl _, h⟩
  | succ n ih =>
    intro lo hi h
    by_cases hlt : lo < hi
    · have hmid₁ : lo ≤ (lo + hi) / 2 := Nat.le_div_iff_mul_le (by omega) |>.mpr (by omega)
      have hmid₂ : (lo + hi) / 2 < hi := Nat.div_lt_of_lt_mul (by omega)
      cases hc : Thresh.ltVal (a.getD ((lo + hi) / 2) Thresh.inf) x
      · simp only [bisectGo, hlt, if_true, hc]
        have := ih lo ((lo + hi) / 2) hmid₁
        exact ⟨this.1, by omega⟩
      · simp only [bisectGo, hlt, if_true, hc]
        have := ih ((lo + hi) / 2 + 1) hi (by omega)
        exact ⟨by omega, this.2⟩
    · simp only [bisectGo, hlt, if_false]
      exact ⟨le_refl _, h⟩

/-- `bisect_left` is monotone in the probe value for *any* list: at the
first comparison where the two searches diverge, the smaller value
continues in the left half and the larger in the right half. -/
theorem bisectGo_mono (a : List Thresh) {x y : ℚ} (hxy : x ≤ y) :
    ∀ fuel lo hi, lo ≤ hi → bisectGo a x fuel lo hi ≤ bisectGo a y fuel lo hi := by
  intro fuel
  induction fuel with
  | zero => intro lo hi _; simp [bisectGo]
  | succ n ih =>
    intro lo hi h
    by_cases hlt : lo < hi
    · have hmid₁ : lo ≤ (lo + hi) / 2 := Nat.le_div_iff_mul_le (by omega) |>.mpr (by omega)
      have hmid₂ : (lo + hi) / 2 < hi := Nat.div_lt_of_lt_mul (by omega)
      cases hx : Thresh.ltVal (a.getD ((lo + hi) / 2) Thresh.inf) x
      · cases hy : Thresh.ltVal (a.getD ((lo + hi) / 2) Thresh.inf) y
        · simp only [bisectGo, hlt, if_true, hx, hy]
          exact ih lo ((lo + hi) / 2) hmid₁
        · simp only [bisectGo, hlt, if_true, hx, hy]
          have h₁ := bisectGo_bounds a x n lo ((lo + hi) / 2) hmid₁
          have h₂ := bisectGo_bounds a y n ((lo + hi) / 2 + 1) hi (by omega)
          omega
      · have hy : Thresh.ltVal (a.getD ((lo + hi) / 2) Thresh.inf) y :=
          Thresh.ltVal_mono hxy hx
        simp only [bisectGo, hlt, if_true, hx, hy]
        exact ih ((lo + hi) / 2 + 1) hi (by omega)
    · simp [bisectGo, hlt]

/-- If a boolean predicate holds on exactly the first `k` positions of a
list, the list counts `k` entries satisfying it. -/
theorem countP_eq_of_split (p : Thresh → Bool) :
    ∀ (a : List Thresh) (k : Nat), k ≤ a.length →
      (∀ i, i < k → p (a.getD i Thresh.inf) = true) →
      (∀ i, k ≤ i → i < a.length → p (a.getD i Thresh.inf) = false) →
      a.countP p = k := by
  intro a
  induction a with
  | nil =>
    intro k hk _ _
    simp at hk
    simp [hk]
  | cons t ts ih =>
    intro k hk hlow hhigh
    cases k with
    | zero =>
      have ht : p t = false := hhigh 0 (Nat.zero_le _) (by simp)
      have : ts.countP p = 0 :=
        ih 0 (Nat.zero_le _) (by omega)
          (fun i _ hi => hhigh (i + 1) (by omega) (by simpa using Nat.succ_lt_succ hi))
      simp [List.countP_cons, ht, this]
    | succ j =>
      have ht : p t = true := hlow 0 (Nat.succ_pos _)
      have : ts.countP p = j :=
        ih j (by simpa using hk)
          (fun i hi => hlow (i + 1) (Nat.succ_lt_succ hi))
          (fun i hji hi => hhigh (i + 1) (Nat.succ_le_succ hji) (by simpa using Nat.succ_lt_succ hi))
      simp [List.countP_cons, ht, this]

/-- Entries of a `Pairwise Thresh.le` list are ordered by position. -/
theorem pairwise_getD {a : List Thresh} (hs : a.Pairwise Thresh.le)
    {i j : Nat} (hij : i < j) (hj : j < a.length) :
    Thresh.le (a.getD i Thresh.inf) (a.getD j Thresh.inf) := by
  have hi : i < a.length := lt_trans hij hj
  rw [a.getD_eq_getElem Thresh.inf hi, a.getD_eq_getElem Thresh.inf hj]
  exact List.pairwise_iff_get.mp hs ⟨i, hi⟩ ⟨j, hj⟩ hij

/-- On a list sorted ascending, `bisect_left` computes the number of
entries strictly below the probe value.  The invariants say that
entries left of `lo` are known-below and entries from `hi` on are
known-not-below. -/
theorem bisectGo_sorted_eq_countP (a : List Thresh) (x : ℚ) (hs : a.Pairwise Thresh.le) :
    ∀ fuel lo hi, hi - lo ≤ fuel → lo ≤ hi → hi ≤ a.length →
      (∀ i, i < lo → Thresh.ltVal (a.getD i Thresh.inf) x = true) →
      (∀ i, hi ≤ i → i < a.length → Thresh.ltVal (a.getD i Thresh.inf) x = false) →
      bisectGo a x fuel lo hi = a.countP (fun t => Thresh.ltVal t x) := by
  intro fuel
  induction fuel with
  | zero =>
    intro lo hi hfuel hlh hha hlow hhigh
    have : lo = hi := by omega
    subst this
    simp only [bisectGo]
    exact (countP_eq_of_split _ a lo (le_trans hlh hha) hlow
      (fun i hi hia => hhigh i (le_trans hlh hi) hia)).symm
  | succ n ih =>
    intro lo hi hfuel hlh hha hlow hhigh
    by_cases hlt : lo < hi
    · have hmid₁ : lo ≤ (lo + hi) / 2 := Nat.le_div_iff_mul_le (by omega) |>.mpr (by omega)
      have hmid₂ : (lo + hi) / 2 < hi := Nat.div_lt_of_lt_mul (by omega)
      cases hc : Thresh.ltVal (a.getD ((lo + hi) / 2) Thresh.inf) x
      · simp only [bisectGo, hlt, if_true, hc]
        refine ih lo ((lo + hi) / 2) (by omega) hmid₁ (by omega) hlow ?_
        intro i hmi hia
        rcases Nat.eq_or_lt_of_le hmi with heq | hgt
        · rw [← heq]; exact hc
        · cases hv : Thresh.ltVal (a.getD i Thresh.inf) x
          · rfl
          · have hle := pairwise_getD hs hgt hia
            rw [Thresh.ltVal_of_le_of_ltVal hle hv] at hc
            exact hc
      · simp only [bisectGo, hlt, if_true, hc]
        refine ih ((lo + hi) / 2 + 1) hi (by omega) (by omega) hha ?_ hhigh
        intro i hi'
        rcases Nat.lt_succ_iff_lt_or_eq.mp hi' with hgt | heq
        · exact Thresh.ltVal_of_le_of_ltVal (pairwise_getD hs hgt (by omega)) hc
        · rw [heq]; exact hc
    · have : lo = hi := by omega
      subst this
      simp only [bisectGo, hlt, if_false]
      exact (countP_eq_of_split _ a lo (le_trans hlh hha) hlow
        (fun i hi hia => hhigh i hi hia)).symm

/-- `bisect_left` on a sorted list equals the count of entries strictly
below the probe value. -/
theorem bisectLeft_eq_countP (a : List Thresh) (x : ℚ) (hs : a.Pairwise Thresh.le) :
    bisectLeft a x = a.countP (fun t => Thresh.ltVal t x) :=
  bisectGo_sorted_eq_countP a x hs a.length 0 a.length (by omega) (Nat.zero_le _)
    (le_refl _) (fun i hi => absurd hi (Nat.not_lt_zero i)) (fun i hi hia => absurd hia (by omega))

/-! ## Data model: categories, processing levels, foods
(`models/category.py`, `models/food.py`) -/

/-- `Category` enumeration (`models/category.py`). -/
inductive Category where
  | BEVERAGE
  | DAIRY_BEVERAGE
  | FOOD
  | DAIRY_FOOD
  | OILS_AND_SPREADS
  | CHEESE
  deriving DecidableEq, Repr

/-- The processing-level strings used throughout the sources;
`unknown` is the placeholder from
`MealCategorizer._get_empty_nutrition_analysis`. -/
inductive ProcLevel where
  | minimally_processed
  | processed
  | ultra_processed
  | unknown
  deriving DecidableEq, Repr

/-- A `Food` record (`models/food.py`): nutrients are a name → amount
per-100g dictionary, modelled as an association list with default 0. -/
structure Food where
  food_id : Nat
  food_name : String
  serving_size : ℚ
  nutrients : List (String × ℚ) := []
  fvnl_percent : ℚ := 0
  category : Option Category := none
  food_group_id : Option Nat := none
  deriving Repr

/-- `food.nutrients.get(key, 0)`. -/
def Food.nutrient (f : Food) (key : String) : ℚ :=
  (f.nutrients.lookup key).getD 0

/-! ## Threshold Provider (`providers/threshold_provider.py`) -/

/-- `NutritionalContext` dataclass (defaults as in the source). -/
structure NutritionalContext where
  is_natural_sugar_dominant : Bool := false
  has_added_sugars : Bool := false
  satiety_index : ℚ := 1
  processing_level : ProcLevel := .minimally_processed
  liquid_percentage : ℚ := 0
  fiber_density : ℚ := 0
  protein_quality_score : ℚ := 1
  fvnl_naturalness : ℚ := 1
  deriving Repr

/-- `HSRThresholds` dataclass: ten ordered lists plus `base_stars`. -/
structure HSRThresholds where
  energy_density : List Thresh
  sugar_natural : List Thresh
  sugar_added : List Thresh
  saturated_fat : List Thresh
  sodium : List Thresh
  fvnl : List Thresh
  protein : List Thresh
  fiber : List Thresh
  star_rating : List Thresh
  base_stars : ℚ := 0
  deriving Repr

/-- Lift a list of plain numbers to threshold entries. -/
def finList (l : List ℚ) : List Thresh := l.map Thresh.fin

def ENERGY_DENSITY_THRESHOLDS : List ℚ := [0, 50, 100, 150, 200, 250, 300, 400, 500, 600, 700]
def NATURAL_SUGAR_THRESHOLDS : List ℚ := [0, 5, 8, 12, 15, 18, 22, 25, 28, 32, 35]
def ADDED_SUGAR_THRESHOLDS : List ℚ := [0, 1, 2, 3, 4, 5, 6, 8, 10, 12, 15]
def SATURATED_FAT_THRESHOLDS : List ℚ := [0, 1, 2, 3, 4, 5, 7, 9, 12, 15, 20]
def SODIUM_THRESHOLDS : List ℚ := [0, 100, 200, 300, 400, 500, 600, 800, 1000, 1200, 1500]
def FVNL_THRESHOLDS : List ℚ := [0, 25, 40, 50, 60, 67, 75, 80, 90, 95, 100]
def PROTEIN_THRESHOLDS : List ℚ := [0, 3, 6, 10, 15, 20, 25, 30, 35, 40, 50]
def FIBER_THRESHOLDS : List ℚ := [0, 1, 2, 3, 4, 5, 6, 8, 10, 12, 15]
def STAR_RATING_THRESHOLDS : List ℚ := [-10, -5, 0, 5, 10, 15, 20, 25, 30, 35, 40]

/-- Base thresholds, identical for every category
(start of `ThresholdProvider.get_thresholds`). -/
def baseThresholds : HSRThresholds where
  energy_density := finList ENERGY_DENSITY_THRESHOLDS
  sugar_natural := finList NATURAL_SUGAR_THRESHOLDS
  sugar_added := finList ADDED_SUGAR_THRESHOLDS
  saturated_fat := finList SATURATED_FAT_THRESHOLDS
  sodium := finList SODIUM_THRESHOLDS
  fvnl := finList FVNL_THRESHOLDS
  protein := finList PROTEIN_THRESHOLDS
  fiber := finList FIBER_THRESHOLDS
  star_rating := finList STAR_RATING_THRESHOLDS
  base_stars := 0

/-- Map a function over the numeric part of a threshold entry
(the `inf` sentinel only ever appears after all arithmetic is done,
so this total lifting agrees with the source's plain-number maps). -/
def tMap (f : ℚ → ℚ) : Thresh → Thresh
  | .fin q => .fin (f q)
  | .inf => .inf

/-- `ThresholdProvider._apply_contextual_adjustments`: satiety scales the
energy scale, ultra-processing tightens added sugar, high liquid
fraction tightens energy and natural sugar, and protein quality divides
the protein scale; every scaled entry goes through Python `int()`. -/
def applyContextualAdjustments (th : HSRThresholds) (context : NutritionalContext) :
    HSRThresholds :=
  let th :=
    if context.satiety_index ≠ 1 then
      { th with energy_density :=
          th.energy_density.map (tMap fun t => (pyInt (t * context.satiety_index) : ℚ)) }
    else th
  let th :=
    if context.processing_level = ProcLevel.ultra_processed then
      { th with sugar_added :=
          th.sugar_added.map (tMap fun t => (pyInt (t * (8 / 10)) : ℚ)) }
    else th
  let th :=
    if context.liquid_percentage > 3 / 10 then
      let liquid_factor := 1 - context.liquid_percentage * (3 / 10)
      { th with
          energy_density := th.energy_density.map (tMap fun t => (pyInt (t * liquid_factor) : ℚ))
          sugar_natural := th.sugar_natural.map (tMap fun t => (pyInt (t * liquid_factor) : ℚ)) }
    else th
  let th :=
    if context.protein_quality_score > 1 then
      { th with protein :=
          th.protein.map (tMap fun t => (pyInt (t / context.protein_quality_score) : ℚ)) }
    else th
  th

/-- `ThresholdProvider._apply_category_adjustments`: cheese loosens the
protein scale, beverages disable fiber via the `inf` sentinel, oils and
spreads shift the energy scale up by 50. -/
def applyCategoryAdjustments (th : HSRThresholds) (category : Category) : HSRThresholds :=
  if category = Category.CHEESE then
    { th with protein := th.protein.map (tMap fun t => max 0 (t - 2)) }
  else if category = Category.BEVERAGE ∨ category = Category.DAIRY_BEVERAGE then
    { th with fiber := List.replicate th.fiber.length Thresh.inf }
  else if category = Category.OILS_AND_SPREADS then
    { th with energy_density := th.energy_density.map (tMap fun t => t + 50) }
  else th

/-- `ThresholdProvider.get_thresholds`. -/
def getThresholds (category : Category) (nutritional_context : Option NutritionalContext) :
    HSRThresholds :=
  let th := baseThresholds
  let th := match nutritional_context with
    | some context => applyContextualAdjustments th context
    | none => th
  applyCategoryAdjustments th category

/-! ## String matching

The sources match keywords against `food_name.lower()` in two ways:
plain Python substring containment (`kw in name`) and whole-word regex
search (`re.search(r'\b' + re.escape(kw) + r'\b', name)`).  The food
names and keywords involved are ASCII, so `\w` is `[A-Za-z0-9_]` and
`str.lower` is ASCII lowercasing. -/

/-- ASCII lowercasing (`str.lower` on the ASCII names used here). -/
def asciiLower (c : Char) : Char :=
  if 'A' ≤ c ∧ c ≤ 'Z' then Char.ofNat (c.toNat + 32) else c

/-- `food_name.lower()` as a character list. -/
def lowerData (s : String) : List Char := s.data.map asciiLower

/-- Does `pat` occur at the very start of `text`? -/
def startsWithChars : List Char → List Char → Bool
  | [], _ => true
  | _ :: _, [] => false
  | p :: ps, c :: cs => p = c && startsWithChars ps cs

/-- Python substring containment `pat in text`. -/
def containsSub (text pat : List Char) : Bool :=
  (List.range (text.length + 1)).any fun i => startsWithChars pat (text.drop i)

/-- Regex word character (`\w` over ASCII). -/
def isWordChar (c : Char) : Bool := c.isAlpha || c.isDigit || c = '_'

/-- Occurrence of `pat` at position `i` of `text` flanked by word
boundaries (`\b...\b`; every keyword begins and ends with a word
character, so the boundary holds iff the neighbouring character is
absent or a non-word character). -/
def wholeWordAt (text pat : List Char) (i : Nat) : Bool :=
  startsWithChars pat (text.drop i) &&
  (decide (i = 0) || !isWordChar (text.getD (i - 1) ' ')) &&
  (decide (text.length ≤ i + pat.length) || !isWordChar (text.getD (i + pat.length) ' '))

/-- `re.search(r'\b' + re.escape(kw) + r'\b', text)` succeeds. -/
def containsWholeWord (text pat : List Char) : Bool :=
  (List.range (text.length + 1)).any (wholeWordAt text pat)

/-- `FoodGroupMapper._contains_keyword`: any keyword matches as a whole
word. -/
def containsKeyword (text : List Char) (keywords : List String) : Bool :=
  keywords.any fun kw => containsWholeWord text kw.data

/-- Python `any(indicator in name for indicator in indicators)`. -/
def containsAnySub (text : List Char) (pats : List String) : Bool :=
  pats.any fun p => containsSub text p.data

/-! ## Food Group Mapper (`utils/food_group_mapper.py`) -/

/-- `FOOD_GROUP_MAPPINGS.get(food_group_id, Category.FOOD)`: groups 1
(dairy/egg), 4 (fats and oils) and 14 (beverages) map to special
categories; groups 2, 3, 5–13, 15–22 and 25 are listed in the table
mapping to `FOOD`, which is also the default for unmapped ids. -/
def foodGroupMapping (food_group_id : Nat) : Category :=
  if food_group_id = 1 then Category.DAIRY_FOOD
  else if food_group_id = 4 then Category.OILS_AND_SPREADS
  else if food_group_id = 14 then Category.BEVERAGE
  else Category.FOOD

def CHEESE_KEYWORDS : List String :=
  ["cheese", "cheddar", "mozzarella", "parmesan", "brie", "camembert",
   "gouda", "swiss", "blue", "feta", "cottage cheese", "cream cheese",
   "ricotta", "provolone", "gruyere"]

def BEVERAGE_KEYWORDS : List String :=
  ["juice", "drink", "beverage", "soda", "cola", "water", "tea", "coffee",
   "smoothie", "shake", "lemonade", "cocktail", "beer", "wine", "alcohol"]

def DAIRY_BEVERAGE_KEYWORDS : List String :=
  ["milk", "yogurt drink", "kefir", "buttermilk", "chocolate milk",
   "flavoured milk", "milk shake", "dairy drink"]

def OIL_SPREAD_KEYWORDS : List String :=
  ["oil", "butter", "margarine", "spread", "shortening", "lard",
   "ghee", "cooking fat", "vegetable oil", "olive oil"]

/-- `FoodGroupMapper.get_category`: base category from the food-group
table, then the five keyword rules, each an early `return`. -/
def getCategory (food_group_id : Nat) (food_name : String) : Category :=
  let n := lowerData food_name
  if food_group_id = 1 ∧ containsKeyword n CHEESE_KEYWORDS then
    Category.CHEESE
  else if food_group_id = 1 ∧ containsKeyword n DAIRY_BEVERAGE_KEYWORDS then
    Category.DAIRY_BEVERAGE
  else if food_group_id = 9 ∧ containsKeyword n BEVERAGE_KEYWORDS then
    Category.BEVERAGE
  else if food_group_id = 14 ∧ containsKeyword n DAIRY_BEVERAGE_KEYWORDS then
    Category.DAIRY_BEVERAGE
  else if containsKeyword n OIL_SPREAD_KEYWORDS then
    Category.OILS_AND_SPREADS
  else
    foodGroupMapping food_group_id

/-! ## Processing-level heuristics

Two distinct per-food heuristics exist in the sources:
`HSRCalculator._determine_processing_level` (substring indicator lists,
default `minimally_processed`) feeding the scoring pipeline, and
`MealCategorizer._assess_overall_processing_level` (different keywords,
default score 2) used by meal categorization. -/

def ULTRA_PROCESSED_INDICATORS : List String :=
  ["flavoured", "flavored", "artificial", "enriched", "fortified",
   "instant", "ready-to-eat", "frozen meal", "snack", "candy",
   "soft drink", "energy drink"]

def PROCESSED_INDICATORS : List String :=
  ["canned", "packaged", "preserved", "smoked", "cured",
   "bread", "cheese", "yogurt"]

/-- `HSRCalculator._determine_processing_level` (per food). -/
def hsrFoodProcessingLevel (food_name : String) : ProcLevel :=
  let n := lowerData food_name
  if containsAnySub n ULTRA_PROCESSED_INDICATORS then ProcLevel.ultra_processed
  else if containsAnySub n PROCESSED_INDICATORS then ProcLevel.processed
  else ProcLevel.minimally_processed

/-- `processing_scores.get(level, 1)` in
`ThresholdProvider._determine_processing_level`. -/
def processingScore : ProcLevel → ℚ
  | ProcLevel.minimally_processed => 1
  | ProcLevel.processed => 2
  | ProcLevel.ultra_processed => 3
  | ProcLevel.unknown => 1

/-- `ThresholdProvider._determine_processing_level`: average the
per-food scores; `≥ 2.5` ultra-processed, `≥ 1.5` processed, else
minimally processed; empty input is minimally processed. -/
def tpDetermineProcessingLevel (levels : List ProcLevel) : ProcLevel :=
  if levels.isEmpty then ProcLevel.minimally_processed
  else
    let avg := (levels.map processingScore).sum / (levels.length : ℚ)
    if avg ≥ 5 / 2 then ProcLevel.ultra_processed
    else if avg ≥ 3 / 2 then ProcLevel.processed
    else ProcLevel.minimally_processed

/-- Processing level reaching the scoring pipeline's nutritional
context: `HSRCalculator._analyze_meal_context` tags every food with
`HSRCalculator._determine_processing_level`, and
`ThresholdProvider.analyze_nutritional_context` averages those tags via
`_determine_processing_level`. -/
def pipelineProcessingLevel (foods : List Food) : ProcLevel :=
  tpDetermineProcessingLevel (foods.map fun f => hsrFoodProcessingLevel f.food_name)

/-- Per-food score inside `MealCategorizer._assess_overall_processing_level`. -/
def mcFoodProcessingScore (food_name : String) : ℚ :=
  let n := lowerData food_name
  if containsAnySub n ["raw", "fresh", "whole", "natural"] then 1
  else if containsAnySub n ["canned", "frozen", "dried", "cooked"] then 2
  else if containsAnySub n ["processed", "enriched", "flavored", "instant"] then 3
  else 2

/-- `MealCategorizer._assess_overall_processing_level`: average of the
per-food scores (2 for an empty meal); `≤ 1.3` minimally processed,
`≤ 2.3` processed, else ultra-processed. -/
def assessOverallProcessingLevel (foods : List Food) : ProcLevel :=
  let scores := foods.map fun f => mcFoodProcessingScore f.food_name
  let avg := if scores.isEmpty then 2 else scores.sum / (scores.length : ℚ)
  if avg ≤ 13 / 10 then ProcLevel.minimally_processed
  else if avg ≤ 23 / 10 then ProcLevel.processed
  else ProcLevel.ultra_processed

/-! ## Meal Categorizer (`utils/meal_categorizer.py`) -/

/-- `MealCategorizer._calculate_liquid_percentage`: serving-weighted
fraction of liquid-named foods, soup counted at weight 0.7. -/
def mcLiquidPercentage (foods : List Food) : ℚ :=
  let total_weight := (foods.map Food.serving_size).sum
  if total_weight = 0 then 0
  else
    let liquid_weight := (foods.map fun f =>
      let n := lowerData f.food_name
      if containsAnySub n ["juice", "drink", "beverage", "milk", "water"] then f.serving_size
      else if containsSub n "soup".data then f.serving_size * (7 / 10)
      else 0).sum
    liquid_weight / total_weight

/-- The fields of `MealCategorizer._analyze_meal_nutrition` that are
read by fitness evaluation, conflict resolution, tie-breaking and
confidence scoring.  The derived display labels
(`energy_density_level`, …), `satiety_index`, `natural_content_score`
and `nutritional_density` are written to the analysis dictionary but
never read by those consumers, so they are not embedded. -/
structure MealNutrition where
  energy_kcal : ℚ
  protein : ℚ
  fat_total : ℚ
  saturated_fat : ℚ
  carbohydrates : ℚ
  sugars : ℚ
  fiber : ℚ
  sodium : ℚ
  total_weight : ℚ
  liquid_percentage : ℚ
  processing_level : ProcLevel
  deriving Repr

/-- `MealCategorizer._get_empty_nutrition_analysis` (modelled fields). -/
def emptyNutritionAnalysis : MealNutrition where
  energy_kcal := 0
  protein := 0
  fat_total := 0
  saturated_fat := 0
  carbohydrates := 0
  sugars := 0
  fiber := 0
  sodium := 0
  total_weight := 0
  liquid_percentage := 0
  processing_level := ProcLevel.unknown

/-- `sum(food.nutrients.get(key, 0) * food.serving_size / 100) / (total_weight / 100)`. -/
def weightedPer100 (foods : List Food) (key : String) (total_weight : ℚ) : ℚ :=
  (foods.map fun f => f.nutrient key * f.serving_size / 100).sum / (total_weight / 100)

/-- `MealCategorizer._analyze_meal_nutrition` (modelled fields). -/
def analyzeMealNutrition (foods : List Food) : MealNutrition :=
  let total_weight := (foods.map Food.serving_size).sum
  if total_weight = 0 then emptyNutritionAnalysis
  else
    { energy_kcal := weightedPer100 foods "ENERGY (KILOCALORIES)" total_weight
      protein := weightedPer100 foods "PROTEIN" total_weight
      fat_total := weightedPer100 foods "FAT, TOTAL" total_weight
      saturated_fat := weightedPer100 foods "FATTY ACIDS, SATURATED, TOTAL" total_weight
      carbohydrates := weightedPer100 foods "CARBOHYDRATE, TOTAL" total_weight
      sugars := weightedPer100 foods "SUGARS, TOTAL" total_weight
      fiber := weightedPer100 foods "FIBRE, TOTAL DIETARY" total_weight
      sodium := weightedPer100 foods "SODIUM" total_weight
      total_weight := total_weight
      liquid_percentage := mcLiquidPercentage foods
      processing_level := assessOverallProcessingLevel foods }

/-- Processing tolerance entry of a category profile. -/
inductive ProcTolerance where
  | any
  | processed
  | minimally_processed
  deriving DecidableEq, Repr

/-- Liquid-percentage bound of a category profile: a floor for
liquid-dominant categories, a ceiling for solid ones. -/
inductive LiquidBound where
  | lmin (q : ℚ)
  | lmax (q : ℚ)
  deriving DecidableEq, Repr

/-- One entry of `MealCategorizer.CATEGORY_NUTRITIONAL_PROFILES`. -/
structure CategoryProfile where
  energy_lo : ℚ
  energy_hi : ℚ
  protein_lo : ℚ
  protein_hi : ℚ
  fat_lo : ℚ
  fat_hi : ℚ
  liquid : LiquidBound
  tolerance : ProcTolerance
  deriving Repr

/-- `MealCategorizer.CATEGORY_NUTRITIONAL_PROFILES`. -/
def categoryProfile : Category → CategoryProfile
  | Category.BEVERAGE =>
    ⟨0, 200, 0, 3, 0, 1, LiquidBound.lmin (8 / 10), ProcTolerance.processed⟩
  | Category.DAIRY_BEVERAGE =>
    ⟨30, 150, 2, 8, 0, 6, LiquidBound.lmin (7 / 10), ProcTolerance.processed⟩
  | Category.FOOD =>
    ⟨50, 800, 0, 50, 0, 50, LiquidBound.lmax (3 / 10), ProcTolerance.any⟩
  | Category.DAIRY_FOOD =>
    ⟨50, 400, 3, 30, 0, 25, LiquidBound.lmax (2 / 10), ProcTolerance.processed⟩
  | Category.CHEESE =>
    ⟨200, 450, 10, 35, 15, 35, LiquidBound.lmax (1 / 10), ProcTolerance.processed⟩
  | Category.OILS_AND_SPREADS =>
    ⟨300, 900, 0, 5, 30, 100, LiquidBound.lmax (2 / 10), ProcTolerance.any⟩

/-- Iteration order of `CATEGORY_NUTRITIONAL_PROFILES` (Python dict
insertion order). -/
def profileOrder : List Category :=
  [Category.BEVERAGE, Category.DAIRY_BEVERAGE, Category.FOOD,
   Category.DAIRY_FOOD, Category.CHEESE, Category.OILS_AND_SPREADS]

/-- Fitness of one category in `MealCategorizer._evaluate_category_fitness`:
weighted sub-scores for energy (20), protein (15), fat (15), liquid
fit (25) and processing match (15), plus a conditional 10-point bonus
that also enlarges the denominator; result normalised to `[0, 1]`. -/
def categoryFitness (nutrition : MealNutrition) (category : Category) : ℚ :=
  let p := categoryProfile category
  let energy_score :=
    if p.energy_lo ≤ nutrition.energy_kcal ∧ nutrition.energy_kcal ≤ p.energy_hi then (20 : ℚ)
    else if nutrition.energy_kcal < p.energy_lo then
      max 0 (20 - (p.energy_lo - nutrition.energy_kcal) / 10)
    else max 0 (20 - (nutrition.energy_kcal - p.energy_hi) / 20)
  let protein_score :=
    if p.protein_lo ≤ nutrition.protein ∧ nutrition.protein ≤ p.protein_hi then (15 : ℚ)
    else if nutrition.protein < p.protein_lo then
      max 0 (15 - (p.protein_lo - nutrition.protein) * 2)
    else max 0 (15 - (nutrition.protein - p.protein_hi) / 2)
  let fat_score :=
    if p.fat_lo ≤ nutrition.fat_total ∧ nutrition.fat_total ≤ p.fat_hi then (15 : ℚ)
    else if nutrition.fat_total < p.fat_lo then
      max 0 (15 - (p.fat_lo - nutrition.fat_total) * 2)
    else max 0 (15 - (nutrition.fat_total - p.fat_hi) / 3)
  let liquid_score :=
    match p.liquid with
    | LiquidBound.lmin m =>
      if nutrition.liquid_percentage ≥ m then (25 : ℚ)
      else nutrition.liquid_percentage / m * 25
    | LiquidBound.lmax m =>
      if nutrition.liquid_percentage ≤ m then (25 : ℚ)
      else max 0 (25 - (nutrition.liquid_percentage - m) * 50)
  let processing_score :=
    if p.tolerance = ProcTolerance.any then (15 : ℚ)
    else if p.tolerance = ProcTolerance.processed ∧
        nutrition.processing_level ≠ ProcLevel.ultra_processed then 15
    else if p.tolerance = ProcTolerance.minimally_processed ∧
        nutrition.processing_level = ProcLevel.minimally_processed then 15
    else if p.tolerance = ProcTolerance.processed ∧
        nutrition.processing_level = ProcLevel.ultra_processed then 10
    else 0
  let bonus :=
    if category = Category.CHEESE ∧ nutrition.protein ≥ 15 ∧ nutrition.fat_total ≥ 15 then
      ((10 : ℚ), (10 : ℚ))
    else if (category = Category.BEVERAGE ∨ category = Category.DAIRY_BEVERAGE) ∧
        nutrition.liquid_percentage > 8 / 10 then (10, 10)
    else if category = Category.OILS_AND_SPREADS ∧ nutrition.fat_total > 50 then (10, 10)
    else (0, 0)
  (energy_score + protein_score + fat_score + liquid_score + processing_score + bonus.1) /
    (90 + bonus.2)

/-- `MealCategorizer._evaluate_category_fitness` in profile order. -/
def evaluateCategoryFitness (nutrition : MealNutrition) : List (Category × ℚ) :=
  profileOrder.map fun c => (c, categoryFitness nutrition c)

/-- Stable insertion into a descending-by-score list: a new item goes
after every item whose score is `≥` its own, reproducing the order of
Python's stable `sorted(..., key=score, reverse=True)`. -/
def insertDesc (x : Category × ℚ) : List (Category × ℚ) → List (Category × ℚ)
  | [] => [x]
  | y :: ys => if y.2 ≥ x.2 then y :: insertDesc x ys else x :: y :: ys

/-- `sorted(category_fitness.items(), key=lambda x: x[1], reverse=True)`. -/
def sortedByFitnessDesc (l : List (Category × ℚ)) : List (Category × ℚ) :=
  l.foldl (fun acc x => insertDesc x acc) []

/-- Result of `MealCategorizer._apply_tie_breaking_rules` (the
display-only `reasoning` strings are not embedded). -/
structure TieBreaker where
  rule_applied : Option String
  winner : Category
  deriving DecidableEq, Repr

/-- `MealCategorizer._apply_tie_breaking_rules`.  Each of rules 1–3 runs
unconditionally and overwrites the current winner on a match; rule 4
fires only when no earlier rule applied.  In rule 2 the source's
`Category.CHEESE if category == Category.CHEESE else category` is just
`category`. -/
def applyTieBreakingRules (top_category : Category) (conflicts : List (Category × ℚ × ℚ))
    (foods : List Food) : TieBreaker :=
  let tb : TieBreaker := ⟨none, top_category⟩
  let liquid_percentage := mcLiquidPercentage foods
  let tb :=
    if liquid_percentage > 3 / 5 then
      match conflicts.find? (fun t =>
          t.1 = Category.BEVERAGE ∨ t.1 = Category.DAIRY_BEVERAGE) with
      | some t => ⟨some "liquid_dominance", t.1⟩
      | none => tb
    else tb
  let nutrition := analyzeMealNutrition foods
  let tb :=
    if nutrition.protein ≥ 15 ∧ nutrition.fat_total ≥ 15 then
      match conflicts.find? (fun t =>
          t.1 = Category.CHEESE ∨ t.1 = Category.DAIRY_FOOD) with
      | some t => ⟨some "protein_fat_profile", t.1⟩
      | none => tb
    else tb
  let tb :=
    if nutrition.energy_kcal > 500 ∧ nutrition.fat_total > 40 then
      match conflicts.find? (fun t => t.1 = Category.OILS_AND_SPREADS) with
      | some _ => ⟨some "energy_density", Category.OILS_AND_SPREADS⟩
      | none => tb
    else tb
  if tb.rule_applied = none then
    match conflicts.find? (fun t => t.1 = Category.FOOD) with
    | some _ => ⟨some "inclusive_default", Category.FOOD⟩
    | none => tb
  else tb

/-- Result of `MealCategorizer._resolve_category_conflicts`. -/
structure ConflictResolution where
  has_conflicts : Bool
  conflicts : List (Category × ℚ × ℚ)
  tie_breaker : Option TieBreaker
  top_category : Category
  top_score : ℚ
  deriving Repr

/-- `MealCategorizer._resolve_category_conflicts`: categories within
0.15 fitness of the top are conflicts; tie-breaking runs when any
exist.  The fitness list always carries the six categories, so the
empty fallback arm is unreachable. -/
def resolveCategoryConflicts (foods : List Food) (category_fitness : List (Category × ℚ)) :
    ConflictResolution :=
  match sortedByFitnessDesc category_fitness with
  | [] => ⟨false, [], none, Category.FOOD, 0⟩
  | (top_category, top_score) :: rest =>
    let conflicts := (rest.filter fun cs => |cs.2 - top_score| < 3 / 20).map
      (fun cs => (cs.1, cs.2, |cs.2 - top_score|))
    let tie_breaker :=
      if conflicts.isEmpty then none
      else some (applyTieBreakingRules top_category conflicts foods)
    ⟨!conflicts.isEmpty, conflicts, tie_breaker, top_category, top_score⟩

/-- Python `max(items, key=lambda x: x[1])`: first item with the
maximal score. -/
def firstMaxByScore (l : List (Category × ℚ)) : Category :=
  match l with
  | [] => Category.FOOD
  | x :: xs => (xs.foldl (fun best y => if y.2 > best.2 then y else best) x).1

/-- `MealCategorizer._select_scientifically_optimal_category`. -/
def selectOptimalCategory (category_fitness : List (Category × ℚ))
    (cr : ConflictResolution) : Category :=
  if cr.has_conflicts ∧ cr.tie_breaker.isSome then
    match cr.tie_breaker with
    | some tb => tb.winner
    | none => firstMaxByScore category_fitness
  else firstMaxByScore category_fitness

/-- `MealCategorizer._calculate_scientific_confidence`. -/
def calculateScientificConfidence (recommended : Category)
    (category_fitness : List (Category × ℚ)) (nutrition : MealNutrition) : ℚ :=
  let base_confidence := ((category_fitness.lookup recommended).getD 0)
  let p := categoryProfile recommended
  let energy_bonus : ℚ :=
    if p.energy_lo ≤ nutrition.energy_kcal ∧ nutrition.energy_kcal ≤ p.energy_hi then 1 / 10
    else 0
  let liquid_bonus : ℚ :=
    match p.liquid with
    | LiquidBound.lmin m => if nutrition.liquid_percentage ≥ m then 1 / 10 else 0
    | LiquidBound.lmax m => if nutrition.liquid_percentage ≤ m then 1 / 10 else 0
  let tolerance_bonus : ℚ := if p.tolerance = ProcTolerance.any then 1 / 20 else 0
  let protein_penalty : ℚ := if nutrition.protein = 0 then 1 / 20 else 0
  let fiber_penalty : ℚ := if nutrition.fiber = 0 then 3 / 100 else 0
  max (1 / 10) (min 1
    (base_confidence + energy_bonus + liquid_bonus + tolerance_bonus -
      protein_penalty - fiber_penalty))

/-- Result of `MealCategorizer.determine_scientific_category`
(the reasoning / rationale / alternatives display fields are not
embedded). -/
structure CategorizationResult where
  recommended_category : Category
  confidence : ℚ
  deriving DecidableEq, Repr

/-- `MealCategorizer.determine_scientific_category`.  A single food
re-uses its pre-assigned category at confidence 1.0 (by the time the
meal categorizer runs every food carries a category, so the `FOOD`
default of the `Option` projection is never exercised); two or more
foods go through nutritional-fitness analysis. -/
def determineScientificCategory (foods : List Food) : CategorizationResult :=
  match foods with
  | [] => ⟨Category.FOOD, 3 / 10⟩
  | [f] => ⟨f.category.getD Category.FOOD, 1⟩
  | _ =>
    let nutrition := analyzeMealNutrition foods
    let category_fitness := evaluateCategoryFitness nutrition
    let conflict_resolution := resolveCategoryConflicts foods category_fitness
    let recommended := selectOptimalCategory category_fitness conflict_resolution
    ⟨recommended, calculateScientificConfidence recommended category_fitness nutrition⟩

/-! ## Meal construction (`models/meal.py`) -/

/-- `Food.__post_init__`: auto-assign a category when none was supplied
and a food-group id is present (the non-raising path of
`_assign_category`; the `except` fallback is unreachable in the pure
embedding). -/
def mkFood (food_id : Nat) (food_name : String) (serving_size : ℚ)
    (nutrients : List (String × ℚ)) (fvnl_percent : ℚ)
    (category : Option Category) (food_group_id : Option Nat) : Food :=
  let f : Food := ⟨food_id, food_name, serving_size, nutrients, fvnl_percent,
    category, food_group_id⟩
  match category, food_group_id with
  | none, some gid => { f with category := some (getCategory gid food_name) }
  | _, _ => f

/-- The nutrient attributes that `Meal._calculate_nutritional_values`
assigns (`total_weight`, the ten weighted per-100g aggregates and the
kJ conversion). -/
structure MealAggregates where
  total_weight : ℚ
  energy_kilocalories : ℚ
  energy_kj : ℚ
  protein : ℚ
  carbohydrate_total : ℚ
  fibre_total_dietary : ℚ
  sugars_total : ℚ
  fat_total : ℚ
  fatty_acids_saturated_total : ℚ
  sodium : ℚ
  calcium : ℚ
  fvnl_percent : ℚ
  deriving DecidableEq, Repr

/-- `Meal._set_zero_nutritional_values` together with the already
assigned `total_weight = 0`. -/
def zeroAggregates : MealAggregates := ⟨0, 0, 0, 0, 0, 0, 0, 0, 0, 0, 0, 0⟩

/-- A constructed `Meal`.  `aggregates = none` means the nutrient
attributes were never assigned — on the empty-foods branch
`__post_init__` returns before `_calculate_nutritional_values` runs, so
reading e.g. `meal.total_weight` afterwards raises `AttributeError`.
The `category_analysis` / `nutritional_context` dictionaries are
display-only and not embedded. -/
structure MealState where
  foods : List Food
  category : Option Category
  category_confidence : ℚ
  category_warnings : List String
  aggregates : Option MealAggregates
  deriving Repr

/-- `Meal._validate_foods` warning messages (numeric interpolation of
the food index is reproduced; all three checks run per food, in loop
order). -/
def validateFoodsWarnings (foods : List Food) : List String :=
  (foods.enum.map fun fi =>
    (if fi.2.serving_size ≤ 0 then [s!"Food {fi.1 + 1}: Invalid serving size"] else []) ++
    (if fi.2.nutrients.isEmpty then [s!"Food {fi.1 + 1}: Missing nutrient data"] else []) ++
    (if fi.2.category = none then [s!"Food {fi.1 + 1}: Missing category"] else [])).flatten

/-- `Meal._assign_missing_food_categories` on one food (Python's
`if food_group_id:` is a *truthiness* test, so `food_group_id = 0`
falls back to `FOOD` just like a missing id). -/
def assignMissingCategory (f : Food) : Food :=
  if f.category = none then
    match f.food_group_id with
    | some gid =>
      if gid ≠ 0 then { f with category := some (getCategory gid f.food_name) }
      else { f with category := some Category.FOOD }
    | none => { f with category := some Category.FOOD }
  else f

/-- `Meal._calculate_weighted_sum`. -/
def mealWeightedSum (foods : List Food) (total_weight : ℚ) (nutrient_name : String) : ℚ :=
  if total_weight = 0 then 0
  else (foods.map fun f => f.nutrient nutrient_name * f.serving_size / 100).sum /
    (total_weight / 100)

/-- `Meal._calculate_fvnl_percent`. -/
def mealFvnlPercent (foods : List Food) (total_weight : ℚ) : ℚ :=
  if total_weight = 0 then 0
  else ((foods.map fun f => f.serving_size * (f.fvnl_percent / 100)).sum / total_weight) * 100

/-- `Meal._calculate_nutritional_values`: `total_weight` is assigned
first; a zero total weight records a warning and zeroes every
aggregate; otherwise the weighted per-100g aggregates are computed
(energy in kJ is `kcal * 4.184`). -/
def calculateNutritionalValues (foods : List Food) : MealAggregates × List String :=
  let total_weight := (foods.map Food.serving_size).sum
  if total_weight = 0 then
    (zeroAggregates, ["Meal has zero total weight"])
  else
    let kcal := mealWeightedSum foods total_weight "ENERGY (KILOCALORIES)"
    ({ total_weight := total_weight
       energy_kilocalories := kcal
       energy_kj := kcal * (4184 / 1000)
       protein := mealWeightedSum foods total_weight "PROTEIN"
       carbohydrate_total := mealWeightedSum foods total_weight "CARBOHYDRATE, TOTAL"
       fibre_total_dietary := mealWeightedSum foods total_weight "FIBRE, TOTAL DIETARY"
       sugars_total := mealWeightedSum foods total_weight "SUGARS, TOTAL"
       fat_total := mealWeightedSum foods total_weight "FAT, TOTAL"
       fatty_acids_saturated_total :=
         mealWeightedSum foods total_weight "FATTY ACIDS, SATURATED, TOTAL"
       sodium := mealWeightedSum foods total_weight "SODIUM"
       calcium := mealWeightedSum foods total_weight "CALCIUM"
       fvnl_percent := mealFvnlPercent foods total_weight }, [])

/-- `Meal._validate_nutritional_values`: reasonableness warnings (the
`:.1f` numeric interpolation in the message text is elided; the
trigger conditions are embedded exactly). -/
def validateNutritionalWarnings (a : MealAggregates) : List String :=
  (if a.energy_kilocalories > 2000 then ["Very high energy content"] else []) ++
  (if a.protein > 100 then ["Extremely high protein"] else []) ++
  (if a.fat_total > 100 then ["Extremely high fat"] else []) ++
  (if a.sodium > 5000 then ["Extremely high sodium"] else []) ++
  (if a.fvnl_percent > 100 then ["FVNL percent exceeds 100%"] else []) ++
  ((([("energy", a.energy_kilocalories), ("protein", a.protein),
      ("carbohydrates", a.carbohydrate_total), ("fiber", a.fibre_total_dietary),
      ("sugars", a.sugars_total), ("fat", a.fat_total),
      ("saturated_fat", a.fatty_acids_saturated_total), ("sodium", a.sodium),
      ("calcium", a.calcium), ("fvnl_percent", a.fvnl_percent)] :
        List (String × ℚ)).filter fun nv => nv.2 < 0).map
    fun nv => s!"Negative {nv.1} value")

/-- `Meal._validate_final_categorization` warning conditions (message
text without the numeric interpolation). -/
def validateFinalCategorizationWarnings (category : Option Category)
    (a : MealAggregates) : List String :=
  (if category = some Category.BEVERAGE ∧ (a.protein > 10 ∨ a.fat_total > 5) then
    ["High protein/fat content unusual for beverage category"]
  else if category = some Category.CHEESE ∧ (a.protein < 5 ∨ a.fat_total < 5) then
    ["Low protein/fat content unusual for cheese category"]
  else if category = some Category.OILS_AND_SPREADS ∧ a.fat_total < 20 then
    ["Low fat content unusual for oils/spreads category"]
  else []) ++
  (if a.fvnl_percent > 80 ∧ category ≠ some Category.FOOD ∧
      category ≠ some Category.DAIRY_FOOD then
    ["High FVNL content may indicate food category more appropriate"]
  else [])

/-- `Meal.__post_init__`.  The empty-foods branch assigns the `FOOD`
fallback with zero confidence and an "Empty meal" warning and
*returns*, leaving every nutrient attribute unassigned.  The non-empty
branch validates the foods, determines (or validates) the category via
the scientific categorizer, computes the aggregates and records the
validation warnings. -/
def mkMeal (foods : List Food) (category : Option Category) : MealState :=
  if foods.isEmpty then
    { foods := foods
      category := some Category.FOOD
      category_confidence := 0
      category_warnings := ["Empty meal - defaulting to FOOD category"]
      aggregates := none }
  else
    let w₀ := validateFoodsWarnings foods
    let missing := (foods.filter fun f => f.category = none).length
    let state :=
      match category with
      | none =>
        let w₁ := if missing > 0 then [s!"{missing} foods missing category assignments"] else []
        let foods := foods.map assignMissingCategory
        let result := determineScientificCategory foods
        (foods, some result.recommended_category, result.confidence, w₀ ++ w₁)
      | some c =>
        let result := determineScientificCategory foods
        let w₁ := if result.recommended_category ≠ c then
            [s!"Calculated category differs from assigned"] else []
        let w₂ := if result.confidence < 3 / 5 then
            ["Consider using calculated category instead"] else []
        (foods, some c, result.confidence, w₀ ++ w₁ ++ w₂)
    let (aggregates, w₃) := calculateNutritionalValues state.1
    let w₄ := if ((state.1.map Food.serving_size).sum : ℚ) = 0 then []
      else validateNutritionalWarnings aggregates
    let w₅ := validateFinalCategorizationWarnings state.2.1 aggregates
    { foods := state.1
      category := state.2.1
      category_confidence := state.2.2.1
      category_warnings := state.2.2.2 ++ w₃ ++ w₄ ++ w₅
      aggregates := some aggregates }

/-! ## HSR Component Scorer (`calculators/hsr_calculator.py`) -/

/-- `sugar_points = int(sugar_natural_points * 0.7 + sugar_added_points * 1.3)`
(`HSRCalculator._calculate_components`, line 257). -/
def combineSugarPoints (sugar_natural_points sugar_added_points : ℕ) : ℤ :=
  pyInt ((sugar_natural_points : ℚ) * (7 / 10) + (sugar_added_points : ℚ) * (13 / 10))

/-- `HSRCalculator._calculate_satiety_adjustment` (with the
`apply_satiety_adjustments` config flag at its default `True`). -/
def calculateSatietyAdjustment (satiety_index : ℚ) : ℚ :=
  max (-3) (min 3 ((satiety_index - 1) * 2))

/-- `HSRCalculator._calculate_processing_penalty`
(`penalties.get(level, 0.0)`). -/
def calculateProcessingPenalty : ProcLevel → ℚ
  | ProcLevel.minimally_processed => 0
  | ProcLevel.processed => 1
  | ProcLevel.ultra_processed => 5 / 2
  | ProcLevel.unknown => 0

/-- `HSRCalculator._calculate_naturalness_bonus` (negated, since lower
scores are better). -/
def calculateNaturalnessBonus (fvnl_naturalness natural_percentage : ℚ) : ℚ :=
  -((if fvnl_naturalness > 4 / 5 then (1 : ℚ)
     else if fvnl_naturalness > 3 / 5 then 1 / 2
     else 0) +
    (if natural_percentage > 80 then (1 / 2 : ℚ) else 0))

/-- Final-score combination of `HSRCalculator._calculate_components`
(lines 275–277): `base_final_score = max(0, baseline - modifying)`;
`final_score = max(0, int(base + satiety + processing + naturalness))`. -/
def finalScore (baseline_points modifying_points : ℤ)
    (satiety_adjustment processing_penalty naturalness_bonus : ℚ) : ℤ :=
  let base_final_score : ℤ := max 0 (baseline_points - modifying_points)
  max 0 (pyInt ((base_final_score : ℚ) + satiety_adjustment + processing_penalty +
    naturalness_bonus))

/-- `HSRCalculator._convert_to_star_rating`. -/
def convertToStarRating (score : ℤ) : ℚ :=
  if score ≤ 0 then 5
  else if score ≤ 5 then 9 / 2
  else if score ≤ 10 then 4
  else if score ≤ 15 then 7 / 2
  else if score ≤ 20 then 3
  else if score ≤ 25 then 5 / 2
  else if score ≤ 30 then 2
  else if score ≤ 35 then 3 / 2
  else 1

/-- The spec's description of the score→star conversion, written from
the specification text ("score ≤0→5.0 stars; ≤5→4.5; ≤10→4.0; ≤15→3.5;
≤20→3.0; ≤25→2.5; ≤30→2.0; ≤35→1.5; else→1.0") for comparison with
`convertToStarRating`. -/
def specStarStepFunction (score : ℤ) : ℚ :=
  if score ≤ 0 then 5
  else if score ≤ 5 then 9 / 2
  else if score ≤ 10 then 4
  else if score ≤ 15 then 7 / 2
  else if score ≤ 20 then 3
  else if score ≤ 25 then 5 / 2
  else if score ≤ 30 then 2
  else if score ≤ 35 then 3 / 2
  else 1

/-! ## Lookup lemmas -/

theorem getPoints_le_length_sub_one (v : ℚ) (t : List Thresh) :
    getPointsByThresholds v t ≤ t.length - 1 := by
  match t with
  | [] => simp [getPointsByThresholds]
  | t0 :: ts =>
    by_cases h : t0 = Thresh.inf
    · simp [getPointsByThresholds, h]
    · simp only [getPointsByThresholds, h, if_false]
      exact min_le_right _ _

theorem getPoints_mono (t : List Thresh) {v₁ v₂ : ℚ} (h : v₁ ≤ v₂) :
    getPointsByThresholds v₁ t ≤ getPointsByThresholds v₂ t := by
  match t with
  | [] => simp [getPointsByThresholds]
  | t0 :: ts =>
    by_cases hinf : t0 = Thresh.inf
    · simp [getPointsByThresholds, hinf]
    · simp only [getPointsByThresholds, hinf, if_false]
      exact min_le_min (bisectGo_mono _ h _ 0 _ (Nat.zero_le _)) (le_refl _)

/-- Pointwise-dominated threshold lists count at least as many entries
below any probe value. -/
theorem countP_ltVal_le_of_forall₂ {l₁ l₂ : List Thresh}
    (h : List.Forall₂ Thresh.le l₁ l₂) (v : ℚ) :
    (l₂.countP fun t => Thresh.ltVal t v) ≤ l₁.countP fun t => Thresh.ltVal t v := by
  induction h with
  | nil => simp
  | cons hab htl ih =>
    rename_i a b l₁' l₂'
    simp only [List.countP_cons]
    have : (if Thresh.ltVal b v = true then 1 else 0) ≤
        if Thresh.ltVal a v = true then 1 else 0 := by
      by_cases hb : Thresh.ltVal b v = true
      · simp [hb, Thresh.ltVal_of_le_of_ltVal hab hb]
      · simp [hb]
    omega

/-! ## Claim theorems -/

/-- C8: for every non-empty threshold list `t` the point lookup is
monotonically non-decreasing in the value, and for every value the
awarded points lie in `[0, len(t) - 1]`. -/
theorem getPoints_monotone_and_bounded (t : List Thresh) (hne : t ≠ []) :
    (∀ v₁ v₂ : ℚ, v₁ ≤ v₂ →
      getPointsByThresholds v₁ t ≤ getPointsByThresholds v₂ t) ∧
    (∀ v : ℚ, 0 ≤ getPointsByThresholds v t ∧
      getPointsByThresholds v t ≤ t.length - 1) :=
  ⟨fun _ _ h => getPoints_mono t h,
   fun v => ⟨Nat.zero_le _, getPoints_le_length_sub_one v t⟩⟩

/-- Witness for C8 at the added-sugar threshold list and values 1 ≤ 2. -/
theorem getPoints_monotone_and_bounded_witness :
    getPointsByThresholds 1 (finList ADDED_SUGAR_THRESHOLDS) ≤
      getPointsByThresholds 2 (finList ADDED_SUGAR_THRESHOLDS) ∧
    getPointsByThresholds 2 (finList ADDED_SUGAR_THRESHOLDS) ≤
      (finList ADDED_SUGAR_THRESHOLDS).length - 1 :=
  ⟨(getPoints_monotone_and_bounded (finList ADDED_SUGAR_THRESHOLDS) (by decide)).1
      1 2 (by norm_num),
   ((getPoints_monotone_and_bounded (finList ADDED_SUGAR_THRESHOLDS) (by decide)).2 2).2⟩

/-- C1 (counterexample): the lookup does *not* award "count of
thresholds ≤ value".  At value 5 against the natural-sugar scale
`[0, 5, 8, …]`, two thresholds are ≤ 5 but `bisect_left` awards only 1
point — a value exactly equal to a threshold does not count as having
reached it. -/
theorem getPoints_ne_count_le_at_5 :
    getPointsByThresholds 5 (finList NATURAL_SUGAR_THRESHOLDS) ≠
      min ((finList NATURAL_SUGAR_THRESHOLDS).countP fun t => Thresh.leVal t 5)
        ((finList NATURAL_SUGAR_THRESHOLDS).length - 1) := by
  decide

/-- Characterisation of the lookup on a sorted list: the awarded points
are the count of thresholds strictly below the value, capped at
`len(t) - 1`, with the empty/`inf` guard. -/
theorem getPoints_count_characterisation (t : List Thresh) (v : ℚ)
    (hs : t.Pairwise Thresh.le) :
    getPointsByThresholds v t =
      if t = [] ∨ t.head? = some Thresh.inf then 0
      else min (t.countP fun s => Thresh.ltVal s v) (t.length - 1) := by
  match t with
  | [] => simp [getPointsByThresholds]
  | t0 :: ts =>
    by_cases hinf : t0 = Thresh.inf
    · simp [getPointsByThresholds, hinf]
    · have hcond : ¬(t0 :: ts = [] ∨ (t0 :: ts).head? = some Thresh.inf) := by
        simp [hinf]
      simp only [getPointsByThresholds, hinf, if_false, hcond]
      rw [bisectLeft_eq_countP _ _ hs]

/-- C1 (amended): for every ascending threshold list, the points equal
the count of thresholds *strictly less than* the value (the bisect-left
rule: equality does not count as reached), capped at `len(t) - 1`; an
empty list or one whose first element is `inf` yields 0 points. -/
theorem getPoints_eq_count_lt (t : List Thresh) (v : ℚ) (hs : t.Pairwise Thresh.le) :
    getPointsByThresholds v t =
      if t = [] ∨ t.head? = some Thresh.inf then 0
      else min (t.countP fun s => Thresh.ltVal s v) (t.length - 1) :=
  getPoints_count_characterisation t v hs

/-- Witness for C1 (amended) at value 5 against the natural-sugar scale. -/
theorem getPoints_eq_count_lt_witness :
    getPointsByThresholds 5 (finList NATURAL_SUGAR_THRESHOLDS) =
      if finList NATURAL_SUGAR_THRESHOLDS = [] ∨
          (finList NATURAL_SUGAR_THRESHOLDS).head? = some Thresh.inf then 0
      else min ((finList NATURAL_SUGAR_THRESHOLDS).countP fun s => Thresh.ltVal s 5)
        ((finList NATURAL_SUGAR_THRESHOLDS).length - 1) :=
  getPoints_eq_count_lt (finList NATURAL_SUGAR_THRESHOLDS) 5 (by decide)

/-- C6: the final integer score is
`max(0, ⌊max(0, baseline − modifying) + satiety + processing + naturalness⌋)`
(Python's `int()` truncation coincides with the floor under the outer
`max 0`), and the score→star conversion is exactly the spec's
descending step function; in particular a final score of 35 yields 1.5
stars. -/
theorem finalScore_floor_and_star_steps :
    (∀ (baseline modifying : ℤ) (satiety processing naturalness : ℚ),
      finalScore baseline modifying satiety processing naturalness =
        max 0 ⌊((max 0 (baseline - modifying) : ℤ) : ℚ) + satiety + processing + naturalness⌋) ∧
    (∀ score : ℤ, convertToStarRating score = specStarStepFunction score) ∧
    convertToStarRating 35 = 3 / 2 := by
  refine ⟨fun b m s p nb => ?_, fun _ => rfl, ?_⟩
  · unfold finalScore
    exact max_zero_pyInt _
  · norm_num [convertToStarRating]

/-- C7: combined sugar points are the integer truncation of
`natural × 0.7 + added × 1.3`, and for the same gram amount the
weighted added-sugar contribution dominates the weighted natural-sugar
contribution (the added-sugar scale is pointwise at most the
natural-sugar scale). -/
theorem sugar_weighting :
    (∀ sugar_natural_points sugar_added_points : ℕ,
      combineSugarPoints sugar_natural_points sugar_added_points =
        ⌊(sugar_natural_points : ℚ) * (7 / 10) + (sugar_added_points : ℚ) * (13 / 10)⌋) ∧
    (∀ v : ℚ,
      (7 / 10 : ℚ) * (getPointsByThresholds v (finList NATURAL_SUGAR_THRESHOLDS) : ℚ) ≤
      (13 / 10 : ℚ) * (getPointsByThresholds v (finList ADDED_SUGAR_THRESHOLDS) : ℚ)) := by
  constructor
  · intro n a
    unfold combineSugarPoints
    exact pyInt_of_nonneg (by positivity)
  · intro v
    have hforall : List.Forall₂ Thresh.le (finList ADDED_SUGAR_THRESHOLDS)
        (finList NATURAL_SUGAR_THRESHOLDS) := by decide
    have hcount := countP_ltVal_le_of_forall₂ hforall v
    have hN : getPointsByThresholds v (finList NATURAL_SUGAR_THRESHOLDS) =
        min ((finList NATURAL_SUGAR_THRESHOLDS).countP fun s => Thresh.ltVal s v)
          ((finList NATURAL_SUGAR_THRESHOLDS).length - 1) := by
      rw [getPoints_count_characterisation _ _ (by decide), if_neg (by decide)]
    have hA : getPointsByThresholds v (finList ADDED_SUGAR_THRESHOLDS) =
        min ((finList ADDED_SUGAR_THRESHOLDS).countP fun s => Thresh.ltVal s v)
          ((finList ADDED_SUGAR_THRESHOLDS).length - 1) := by
      rw [getPoints_count_characterisation _ _ (by decide), if_neg (by decide)]
    have hle : getPointsByThresholds v (finList NATURAL_SUGAR_THRESHOLDS) ≤
        getPointsByThresholds v (finList ADDED_SUGAR_THRESHOLDS) := by
      rw [hN, hA]
      exact min_le_min hcount (le_refl _)
    have hle' : ((getPointsByThresholds v (finList NATURAL_SUGAR_THRESHOLDS) : ℕ) : ℚ) ≤
        ((getPointsByThresholds v (finList ADDED_SUGAR_THRESHOLDS) : ℕ) : ℚ) := by
      exact_mod_cast hle
    nlinarith [Nat.cast_nonneg (α := ℚ) (getPointsByThresholds v (finList NATURAL_SUGAR_THRESHOLDS))]

/-- A food named "chicken": no keyword of either processing heuristic
matches it. -/
def chickenFood : Food where
  food_id := 1
  food_name := "chicken"
  serving_size := 100

/-- C3 (counterexample): the scoring pipeline's processing level is
*not* the raw/fresh/…-keyword average heuristic.  For the single food
"chicken" the pipeline heuristic (no indicator → `minimally_processed`,
average 1 < 1.5) yields `minimally_processed`, while the claimed
heuristic (`MealCategorizer._assess_overall_processing_level`: default
score 2, average 2 ∈ (1.3, 2.3]) yields `processed`. -/
theorem pipeline_processing_ne_claimed_heuristic :
    pipelineProcessingLevel [chickenFood] = ProcLevel.minimally_processed ∧
    assessOverallProcessingLevel [chickenFood] = ProcLevel.processed := by
  constructor
  · have h : hsrFoodProcessingLevel "chicken" = ProcLevel.minimally_processed := by decide
    norm_num [pipelineProcessingLevel, tpDetermineProcessingLevel, chickenFood, h,
      processingScore]
  · have h : mcFoodProcessingScore "chicken" = 2 := by decide
    norm_num [assessOverallProcessingLevel, chickenFood, h]

/-- Sum of the pipeline's per-food processing scores (used to state the
division-free characterisation of the averaged level). -/
def hsrProcessingScoreSum (foods : List Food) : ℚ :=
  (foods.map fun f => processingScore (hsrFoodProcessingLevel f.food_name)).sum

/-- C3 (amended): for every non-empty meal, the processing level used
in the scoring pipeline's nutritional context averages the per-food
scores of `HSRCalculator._determine_processing_level` (ultra-processed
indicator → 3, processed indicator → 2, default 1, matched as
substrings) and maps the average to `ultra_processed` when ≥ 2.5,
`processed` when ≥ 1.5, and `minimally_processed` otherwise. -/
theorem pipeline_processing_characterisation (foods : List Food) (hne : foods ≠ []) :
    pipelineProcessingLevel foods =
      if 5 * (foods.length : ℚ) ≤ 2 * hsrProcessingScoreSum foods then
        ProcLevel.ultra_processed
      else if 3 * (foods.length : ℚ) ≤ 2 * hsrProcessingScoreSum foods then
        ProcLevel.processed
      else ProcLevel.minimally_processed := by
  have hn : (0 : ℚ) < (foods.length : ℚ) := by
    have : 0 < foods.length := List.length_pos.mpr hne
    exact_mod_cast this
  unfold pipelineProcessingLevel tpDetermineProcessingLevel
  rw [if_neg (by simp [List.isEmpty_iff, hne])]
  have hsum : ((foods.map fun f => hsrFoodProcessingLevel f.food_name).map processingScore).sum
      = hsrProcessingScoreSum foods := by
    rw [List.map_map]
    rfl
  have hlen : ((foods.map fun f => hsrFoodProcessingLevel f.food_name).length : ℚ)
      = (foods.length : ℚ) := by
    rw [List.length_map]
  rw [hsum, hlen]
  have h52 : (hsrProcessingScoreSum foods / (foods.length : ℚ) ≥ 5 / 2) ↔
      (5 * (foods.length : ℚ) ≤ 2 * hsrProcessingScoreSum foods) := by
    rw [ge_iff_le, le_div_iff₀ hn]
    constructor <;> intro h <;> linarith
  have h32 : (hsrProcessingScoreSum foods / (foods.length : ℚ) ≥ 3 / 2) ↔
      (3 * (foods.length : ℚ) ≤ 2 * hsrProcessingScoreSum foods) := by
    rw [ge_iff_le, le_div_iff₀ hn]
    constructor <;> intro h <;> linarith
  rw [if_congr h52 rfl (if_congr h32 rfl rfl)]

/-- Witness for C3 (amended) on the single-food meal "chicken". -/
theorem pipeline_processing_characterisation_witness :
    pipelineProcessingLevel [chickenFood] =
      if 5 * (([chickenFood] : List Food).length : ℚ) ≤
          2 * hsrProcessingScoreSum [chickenFood] then ProcLevel.ultra_processed
      else if 3 * (([chickenFood] : List Food).length : ℚ) ≤
          2 * hsrProcessingScoreSum [chickenFood] then ProcLevel.processed
      else ProcLevel.minimally_processed :=
  pipeline_processing_characterisation [chickenFood] (List.cons_ne_nil _ _)

/-- C5 (counterexample): the oil/spread keyword override does *not*
have the highest priority.  "Cheese spread" in food group 1 contains
the oil/spread keyword "spread" as a whole word, yet the cheese rule
fires first and classification returns `CHEESE`, not
`OILS_AND_SPREADS`. -/
theorem oil_override_not_highest_priority :
    containsKeyword (lowerData "Cheese spread") OIL_SPREAD_KEYWORDS = true ∧
    getCategory 1 "Cheese spread" = Category.CHEESE := by decide

/-- C5 (amended): a food whose name contains an oil/spread keyword as a
whole word is classified `OILS_AND_SPREADS` regardless of food group,
*provided* none of the four earlier keyword rules fires (cheese or
dairy-beverage keywords in group 1, beverage keywords in group 9,
dairy-beverage keywords in group 14); those earlier rules return first
and win over the oil/spread override. -/
theorem oil_keyword_wins_without_earlier_rule (food_group_id : Nat) (food_name : String)
    (hoil : containsKeyword (lowerData food_name) OIL_SPREAD_KEYWORDS = true)
    (h1 : ¬(food_group_id = 1 ∧
      (containsKeyword (lowerData food_name) CHEESE_KEYWORDS = true ∨
       containsKeyword (lowerData food_name) DAIRY_BEVERAGE_KEYWORDS = true)))
    (h9 : ¬(food_group_id = 9 ∧
      containsKeyword (lowerData food_name) BEVERAGE_KEYWORDS = true))
    (h14 : ¬(food_group_id = 14 ∧
      containsKeyword (lowerData food_name) DAIRY_BEVERAGE_KEYWORDS = true)) :
    getCategory food_group_id food_name = Category.OILS_AND_SPREADS := by
  unfold getCategory
  dsimp only
  rw [if_neg (fun hc => h1 ⟨hc.1, Or.inl hc.2⟩),
      if_neg (fun hc => h1 ⟨hc.1, Or.inr hc.2⟩),
      if_neg h9, if_neg h14, if_pos hoil]

/-- Witness for C5 (amended): beef (group 13) marinated in oil. -/
theorem oil_keyword_wins_without_earlier_rule_witness :
    getCategory 13 "Beef, in oil" = Category.OILS_AND_SPREADS :=
  oil_keyword_wins_without_earlier_rule 13 "Beef, in oil"
    (by decide) (by decide) (by decide) (by decide)

/-- C9: keyword matching is whole-word only.  For every food in a
non-oil food group (≠ 4) whose name contains an oil/spread keyword only
as a substring of a longer word (so the whole-word search fails),
classification does not return `OILS_AND_SPREADS`. -/
theorem no_substring_oil_misclassification (food_group_id : Nat) (food_name : String)
    (hgroup : food_group_id ≠ 4)
    (hsub : containsAnySub (lowerData food_name) OIL_SPREAD_KEYWORDS = true)
    (hww : containsKeyword (lowerData food_name) OIL_SPREAD_KEYWORDS = false) :
    getCategory food_group_id food_name ≠ Category.OILS_AND_SPREADS := by
  have hmap : foodGroupMapping food_group_id ≠ Category.OILS_AND_SPREADS := by
    unfold foodGroupMapping
    split_ifs with g1 g2 g3 <;> simp_all
  unfold getCategory
  dsimp only
  split_ifs <;> simp_all [hmap]

/-- Witness for C9: "Rice, boiled" in the cereals group (20) — "boiled"
contains "oil" as a substring but not as a whole word — is not
classified as oils/spreads. -/
theorem no_substring_oil_misclassification_witness :
    getCategory 20 "Rice, boiled" ≠ Category.OILS_AND_SPREADS :=
  no_substring_oil_misclassification 20 "Rice, boiled"
    (by decide) (by decide) (by decide)

/-- C2 (counterexample): the aggregated nutrient attributes of an
empty-list Meal are *not* zero — the empty-foods branch of
`__post_init__` returns before `_calculate_nutritional_values` (and
`_set_zero_nutritional_values`) ever runs, so they are never assigned
at all. -/
theorem empty_meal_aggregates_not_zero :
    (mkMeal [] none).aggregates = none ∧
    (mkMeal [] none).aggregates ≠ some zeroAggregates := by
  constructor <;> simp [mkMeal]

/-- C2 (amended): constructing a Meal from an explicitly empty food
list raises no exception (the constructor is total) and yields category
`FOOD`, `category_confidence = 0.0` and an "Empty meal" warning; the
aggregated nutrient attributes, however, are left unassigned (reading
them afterwards raises `AttributeError`) rather than set to 0. -/
theorem empty_meal_state :
    (mkMeal [] none).category = some Category.FOOD ∧
    (mkMeal [] none).category_confidence = 0 ∧
    "Empty meal - defaulting to FOOD category" ∈ (mkMeal [] none).category_warnings ∧
    (mkMeal [] none).aggregates = none := by
  refine ⟨?_, ?_, ?_, ?_⟩ <;> simp [mkMeal]

/-- A mostly-liquid dairy food: 70 g with "milk" in the name, 20 g/100g
protein and fat. -/
def milkFood : Food where
  food_id := 1
  food_name := "milk, whole"
  serving_size := 70
  nutrients := [("PROTEIN", 20), ("FAT, TOTAL", 20)]

/-- A solid dairy food: 30 g, 20 g/100g protein and fat. -/
def cheddarFood : Food where
  food_id := 2
  food_name := "cheddar"
  serving_size := 30
  nutrients := [("PROTEIN", 20), ("FAT, TOTAL", 20)]

/-- A conflict list with a liquid category (`DAIRY_BEVERAGE`) ahead of
`CHEESE`, both within 0.15 of the top fitness. -/
def conflictsEx : List (Category × ℚ × ℚ) :=
  [(Category.DAIRY_BEVERAGE, 7 / 10, 1 / 10), (Category.CHEESE, 7 / 10, 1 / 10)]

theorem milk_cheddar_liquid : mcLiquidPercentage [milkFood, cheddarFood] = 7 / 10 := by
  have h1 : containsAnySub (lowerData "milk, whole")
      ["juice", "drink", "beverage", "milk", "water"] = true := by decide
  have h2 : containsAnySub (lowerData "cheddar")
      ["juice", "drink", "beverage", "milk", "water"] = false := by decide
  have h3 : containsSub (lowerData "cheddar") "soup".data = false := by decide
  have hs1 : milkFood.serving_size = 70 := rfl
  have hs2 : cheddarFood.serving_size = 30 := rfl
  have hn1 : milkFood.food_name = "milk, whole" := rfl
  have hn2 : cheddarFood.food_name = "cheddar" := rfl
  norm_num [mcLiquidPercentage, hs1, hs2, hn1, hn2, h1, h2, h3]

theorem milk_cheddar_protein : (analyzeMealNutrition [milkFood, cheddarFood]).protein = 20 := by
  have hp1 : milkFood.nutrient "PROTEIN" = 20 := by decide
  have hp2 : cheddarFood.nutrient "PROTEIN" = 20 := by decide
  have hs1 : milkFood.serving_size = 70 := rfl
  have hs2 : cheddarFood.serving_size = 30 := rfl
  norm_num [analyzeMealNutrition, weightedPer100, hp1, hp2, hs1, hs2]

theorem milk_cheddar_fat : (analyzeMealNutrition [milkFood, cheddarFood]).fat_total = 20 := by
  have hp1 : milkFood.nutrient "FAT, TOTAL" = 20 := by decide
  have hp2 : cheddarFood.nutrient "FAT, TOTAL" = 20 := by decide
  have hs1 : milkFood.serving_size = 70 := rfl
  have hs2 : cheddarFood.serving_size = 30 := rfl
  norm_num [analyzeMealNutrition, weightedPer100, hp1, hp2, hs1, hs2]

theorem milk_cheddar_energy :
    (analyzeMealNutrition [milkFood, cheddarFood]).energy_kcal = 0 := by
  have hp1 : milkFood.nutrient "ENERGY (KILOCALORIES)" = 0 := by decide
  have hp2 : cheddarFood.nutrient "ENERGY (KILOCALORIES)" = 0 := by decide
  have hs1 : milkFood.serving_size = 70 := rfl
  have hs2 : cheddarFood.serving_size = 30 := rfl
  norm_num [analyzeMealNutrition, weightedPer100, hp1, hp2, hs1, hs2]

/-- C4 (counterexample): tie-breaking is *not* first-match-wins.  On a
70 % liquid meal (rule (a) applies: `liquid_percentage = 0.7 > 0.6`,
with the liquid category `DAIRY_BEVERAGE` among the conflicts), the
later protein/fat rule (protein = fat = 20 ≥ 15, `CHEESE` among the
conflicts) overwrites the winner, which ends up `CHEESE`, not the
liquid category. -/
theorem tie_breaking_liquid_rule_overridden :
    mcLiquidPercentage [milkFood, cheddarFood] > 3 / 5 ∧
    Category.DAIRY_BEVERAGE ∈ conflictsEx.map (fun t => t.1) ∧
    (applyTieBreakingRules Category.FOOD conflictsEx [milkFood, cheddarFood]).winner =
      Category.CHEESE ∧
    (applyTieBreakingRules Category.FOOD conflictsEx [milkFood, cheddarFood]).winner ≠
      Category.DAIRY_BEVERAGE := by
  have hwin : (applyTieBreakingRules Category.FOOD conflictsEx [milkFood, cheddarFood]).winner =
      Category.CHEESE := by
    unfold applyTieBreakingRules
    rw [milk_cheddar_liquid]
    norm_num [conflictsEx, milk_cheddar_protein, milk_cheddar_fat, milk_cheddar_energy,
      List.find?]
    decide
  refine ⟨by rw [milk_cheddar_liquid]; norm_num, by simp [conflictsEx], hwin, ?_⟩
  rw [hwin]
  simp

/-- C4 (amended): rule (a) sets the winner to the first liquid category
among the conflicts, but rules (b) and (c) still run afterwards and
overwrite that winner whenever they match; the liquid category wins
only when neither later rule matches. -/
theorem tie_break_liquid_wins_when_later_rules_silent
    (top_category : Category) (conflicts : List (Category × ℚ × ℚ)) (foods : List Food)
    (c : Category × ℚ × ℚ)
    (hliq : mcLiquidPercentage foods > 3 / 5)
    (hfind : conflicts.find? (fun t =>
      t.1 = Category.BEVERAGE ∨ t.1 = Category.DAIRY_BEVERAGE) = some c)
    (h2 : ¬((analyzeMealNutrition foods).protein ≥ 15 ∧
      (analyzeMealNutrition foods).fat_total ≥ 15 ∧
      (conflicts.find? (fun t =>
        t.1 = Category.CHEESE ∨ t.1 = Category.DAIRY_FOOD)).isSome))
    (h3 : ¬((analyzeMealNutrition foods).energy_kcal > 500 ∧
      (analyzeMealNutrition foods).fat_total > 40 ∧
      (conflicts.find? (fun t => t.1 = Category.OILS_AND_SPREADS)).isSome)) :
    (applyTieBreakingRules top_category conflicts foods).winner = c.1 := by
  unfold applyTieBreakingRules
  dsimp only
  rw [if_pos hliq, hfind]
  have hr2 : (if (analyzeMealNutrition foods).protein ≥ 15 ∧
      (analyzeMealNutrition foods).fat_total ≥ 15 then
        match conflicts.find? (fun t =>
          t.1 = Category.CHEESE ∨ t.1 = Category.DAIRY_FOOD) with
        | some t => (⟨some "protein_fat_profile", t.1⟩ : TieBreaker)
        | none => (⟨some "liquid_dominance", c.1⟩ : TieBreaker)
      else (⟨some "liquid_dominance", c.1⟩ : TieBreaker)) =
      (⟨some "liquid_dominance", c.1⟩ : TieBreaker) := by
    by_cases hpf : (analyzeMealNutrition foods).protein ≥ 15 ∧
        (analyzeMealNutrition foods).fat_total ≥ 15
    · have hnone : conflicts.find? (fun t =>
          t.1 = Category.CHEESE ∨ t.1 = Category.DAIRY_FOOD) = none := by
        cases hopt : conflicts.find? (fun t =>
            t.1 = Category.CHEESE ∨ t.1 = Category.DAIRY_FOOD) with
        | none => rfl
        | some t => exact absurd ⟨hpf.1, hpf.2, by rw [hopt]; rfl⟩ h2
      rw [if_pos hpf, hnone]
    · rw [if_neg hpf]
  rw [hr2]
  have hr3 : (if (analyzeMealNutrition foods).energy_kcal > 500 ∧
      (analyzeMealNutrition foods).fat_total > 40 then
        match conflicts.find? (fun t => t.1 = Category.OILS_AND_SPREADS) with
        | some _ => (⟨some "energy_density", Category.OILS_AND_SPREADS⟩ : TieBreaker)
        | none => (⟨some "liquid_dominance", c.1⟩ : TieBreaker)
      else (⟨some "liquid_dominance", c.1⟩ : TieBreaker)) =
      (⟨some "liquid_dominance", c.1⟩ : TieBreaker) := by
    by_cases hef : (analyzeMealNutrition foods).energy_kcal > 500 ∧
        (analyzeMealNutrition foods).fat_total > 40
    · have hnone : conflicts.find? (fun t => t.1 = Category.OILS_AND_SPREADS) = none := by
        cases hopt : conflicts.find? (fun t => t.1 = Category.OILS_AND_SPREADS) with
        | none => rfl
        | some t => exact absurd ⟨hef.1, hef.2, by rw [hopt]; rfl⟩ h3
      rw [if_pos hef, hnone]
    · rw [if_neg hef]
  rw [hr3]
  simp

/-- A pure liquid food with no nutrients: only the liquid-dominance
tie-break rule can fire. -/
def waterFood : Food where
  food_id := 3
  food_name := "water"
  serving_size := 100

theorem water_liquid : mcLiquidPercentage [waterFood] = 1 := by
  have h1 : containsAnySub (lowerData "water")
      ["juice", "drink", "beverage", "milk", "water"] = true := by decide
  have hs : waterFood.serving_size = 100 := rfl
  have hn : waterFood.food_name = "water" := rfl
  norm_num [mcLiquidPercentage, hs, hn, h1]

theorem water_protein : (analyzeMealNutrition [waterFood]).protein = 0 := by
  have hp : waterFood.nutrient "PROTEIN" = 0 := by decide
  have hs : waterFood.serving_size = 100 := rfl
  norm_num [analyzeMealNutrition, weightedPer100, hp, hs]

theorem water_energy : (analyzeMealNutrition [waterFood]).energy_kcal = 0 := by
  have hp : waterFood.nutrient "ENERGY (KILOCALORIES)" = 0 := by decide
  have hs : waterFood.serving_size = 100 := rfl
  norm_num [analyzeMealNutrition, weightedPer100, hp, hs]

/-! ## Sortedness of produced thresholds (C10) -/

/-- Mapping a monotone numeric function over entries preserves the
threshold order. -/
theorem pairwise_le_map_tMap {f : ℚ → ℚ} (hf : Monotone f) {l : List Thresh}
    (h : l.Pairwise Thresh.le) : (l.map (tMap f)).Pairwise Thresh.le := by
  refine List.Pairwise.map _ ?_ h
  intro a b hab
  cases a <;> cases b <;> simp_all [Thresh.le, tMap]
  exact hf hab

theorem pairwise_replicate_inf (n : Nat) :
    (List.replicate n Thresh.inf).Pairwise Thresh.le := by
  induction n with
  | zero => simp
  | succ k ih =>
    rw [List.replicate_succ]
    refine List.Pairwise.cons ?_ ih
    intro b hb
    rw [List.eq_of_mem_replicate hb]
    trivial

theorem mono_pyInt_mul (s : ℚ) (hs : 0 ≤ s) :
    Monotone fun t : ℚ => ((pyInt (t * s) : ℤ) : ℚ) := by
  intro a b hab
  have h : pyInt (a * s) ≤ pyInt (b * s) :=
    pyInt_mono (mul_le_mul_of_nonneg_right hab hs)
  show ((pyInt (a * s) : ℤ) : ℚ) ≤ ((pyInt (b * s) : ℤ) : ℚ)
  exact_mod_cast h

theorem mono_pyInt_div (s : ℚ) (hs : 0 < s) :
    Monotone fun t : ℚ => ((pyInt (t / s) : ℤ) : ℚ) := by
  intro a b hab
  have h : pyInt (a / s) ≤ pyInt (b / s) := by
    apply pyInt_mono
    gcongr
  show ((pyInt (a / s) : ℤ) : ℚ) ≤ ((pyInt (b / s) : ℤ) : ℚ)
  exact_mod_cast h

/-- All ten threshold lists of an `HSRThresholds` are non-decreasing. -/
def sortedThresholds (th : HSRThresholds) : Prop :=
  th.energy_density.Pairwise Thresh.le ∧
  th.sugar_natural.Pairwise Thresh.le ∧
  th.sugar_added.Pairwise Thresh.le ∧
  th.saturated_fat.Pairwise Thresh.le ∧
  th.sodium.Pairwise Thresh.le ∧
  th.fvnl.Pairwise Thresh.le ∧
  th.protein.Pairwise Thresh.le ∧
  th.fiber.Pairwise Thresh.le ∧
  th.star_rating.Pairwise Thresh.le

theorem contextual_preserves_sorted (th : HSRThresholds) (context : NutritionalContext)
    (hs₁ : 0 ≤ context.satiety_index) (hl₂ : context.liquid_percentage ≤ 1)
    (hp : 0 < context.protein_quality_score) (h : sortedThresholds th) :
    sortedThresholds (applyContextualAdjustments th context) := by
  obtain ⟨h1, h2, h3, h4, h5, h6, h7, h8, h9⟩ := h
  have hm_sat := mono_pyInt_mul context.satiety_index hs₁
  have hm_08 := mono_pyInt_mul (8 / 10) (by norm_num)
  have hm_liq := mono_pyInt_mul (1 - context.liquid_percentage * (3 / 10)) (by linarith)
  have hm_pq := mono_pyInt_div context.protein_quality_score hp
  unfold applyContextualAdjustments
  dsimp only
  split_ifs <;>
    refine ⟨?_, ?_, ?_, ?_, ?_, ?_, ?_, ?_, ?_⟩ <;>
      first
        | assumption
        | exact pairwise_le_map_tMap hm_sat h1
        | exact pairwise_le_map_tMap hm_liq h1
        | exact pairwise_le_map_tMap hm_liq (pairwise_le_map_tMap hm_sat h1)
        | exact pairwise_le_map_tMap hm_liq h2
        | exact pairwise_le_map_tMap hm_08 h3
        | exact pairwise_le_map_tMap hm_pq h7

theorem category_preserves_sorted (th : HSRThresholds) (category : Category)
    (h : sortedThresholds th) :
    sortedThresholds (applyCategoryAdjustments th category) := by
  obtain ⟨h1, h2, h3, h4, h5, h6, h7, h8, h9⟩ := h
  have hm_cheese : Monotone fun t : ℚ => max 0 (t - 2) := by
    intro a b hab
    exact max_le_max le_rfl (by linarith)
  have hm_50 : Monotone fun t : ℚ => t + 50 := by
    intro a b hab
    dsimp only
    linarith
  unfold applyCategoryAdjustments
  split_ifs <;>
    refine ⟨?_, ?_, ?_, ?_, ?_, ?_, ?_, ?_, ?_⟩ <;>
      first
        | assumption
        | exact pairwise_le_map_tMap hm_cheese h7
        | exact pairwise_replicate_inf _
        | exact pairwise_le_map_tMap hm_50 h1

/-- C10: for every category and every nutritional context within the
data-model bounds (satiety index in [0.5, 1.5], liquid percentage in
[0, 1], protein quality score ≥ 1), every threshold list produced by
`get_thresholds` — after all contextual and category adjustments — is a
non-decreasing sequence.  (In this pure embedding the produced
thresholds are values the scoring functions only read, so they are
never mutated by a calculation.) -/
theorem thresholds_sorted (category : Category) (context : NutritionalContext)
    (hs₁ : 1 / 2 ≤ context.satiety_index) (hs₂ : context.satiety_index ≤ 3 / 2)
    (hl₁ : 0 ≤ context.liquid_percentage) (hl₂ : context.liquid_percentage ≤ 1)
    (hp : 1 ≤ context.protein_quality_score) :
    sortedThresholds (getThresholds category (some context)) := by
  have hbase : sortedThresholds baseThresholds := by
    unfold sortedThresholds baseThresholds
    decide
  unfold getThresholds
  exact category_preserves_sorted _ category
    (contextual_preserves_sorted _ context (by linarith) hl₂ (by linarith) hbase)

/-- Witness for C10 at the default (baseline) nutritional context and
the FOOD category. -/
theorem thresholds_sorted_witness :
    sortedThresholds (getThresholds Category.FOOD
      (some { satiety_index := 1, liquid_percentage := 0, protein_quality_score := 1 })) :=
  thresholds_sorted Category.FOOD
    { satiety_index := 1, liquid_percentage := 0, protein_quality_score := 1 }
    (by norm_num) (by norm_num) (by norm_num) (by norm_num) (by norm_num)

/-- Witness for C4 (amended): a pure-water meal with only
`DAIRY_BEVERAGE` in conflict — no later rule matches, so the liquid
category wins. -/
theorem tie_break_liquid_wins_witness :
    (applyTieBreakingRules Category.FOOD
      [(Category.DAIRY_BEVERAGE, 7 / 10, 1 / 10)] [waterFood]).winner =
      Category.DAIRY_BEVERAGE :=
  tie_break_liquid_wins_when_later_rules_silent Category.FOOD
    [(Category.DAIRY_BEVERAGE, 7 / 10, 1 / 10)] [waterFood]
    (Category.DAIRY_BEVERAGE, 7 / 10, 1 / 10)
    (by rw [water_liquid]; norm_num)
    (by rfl)
    (by rw [water_protein]; norm_num)
    (by rw [water_energy]; norm_num)

end HSR
